import Mathlib

/-!
Shallow embedding of the StudyMate client (src/App.tsx) and verification of
its specification claims.

The App component is a single React function component. Its observable logic
is embedded here as pure functions over an explicit state record `AppState`:

* `reconcileSelection` / `onSnapshotUpdate` — the store-subscription callback
  (App.tsx lines 140-153) that replaces the list snapshot and reconciles the
  selected lecture.
* `setupMockMode` / `setupFirebaseStart` — startup backend choice
  (App.tsx lines 103-117).
* `handleToggleRecording` / `recognitionOnEnd` — speech-capture toggling
  (App.tsx lines 192-195 and 204-214).
* `handleGenerate` — the generation pipeline (App.tsx lines 216-294).

JavaScript is untyped, so the payload returned by the generative service is
modelled by a `JsonValue` type that includes `jundefined` for the JavaScript
`undefined` value produced by reading an absent property. External effects
(the network call, `JSON.parse`, `Date.now()`, the Firestore write) enter the
functions as explicit parameters describing their outcome.
-/

namespace StudyMate

/-- A JavaScript value as far as the generation pipeline observes it:
the result of `JSON.parse` (never `jundefined`) or of a property read
(possibly `jundefined`). -/
inductive JsonValue where
  | jundefined
  | jnull
  | jbool (b : Bool)
  | jnum (n : Int)
  | jstr (s : String)
  | jarr (elems : List JsonValue)
  | jobj (fields : List (String × JsonValue))

/-- First binding of a key in an object field list. `JSON.parse` keeps at most
one binding per key, so first-match lookup is adequate. -/
def lookupField : List (String × JsonValue) → String → JsonValue
  | [], _ => .jundefined
  | (k, v) :: rest, key => if k = key then v else lookupField rest key

/-- JavaScript property read `v[key]` for non-null, non-undefined `v`:
a field of an object, `undefined` otherwise (reads on primitives and arrays
yield `undefined`; reads on `null`/`undefined` throw and are handled by the
caller before this function is used). -/
def jsGet : JsonValue → String → JsonValue
  | .jobj fields, key => lookupField fields key
  | _, _ => .jundefined

/-- The `Flashcard` interface (App.tsx lines 25-28). -/
structure Flashcard where
  term : String
  definition : String
deriving DecidableEq

/-- A Firestore-style timestamp: the remote backend writes a pending
server-timestamp placeholder; the fallback backend and the snapshot deliver a
resolved time (milliseconds, as from `Date.now()`). -/
inductive Timestamp where
  | pending
  | resolved (ms : Int)
deriving DecidableEq

/-- The `Lecture` interface (App.tsx lines 30-37). `summary` and `flashcards`
are JavaScript values: the code assigns whatever the parsed generation payload
held, without validation, so the fields are modelled untyped. -/
structure Lecture where
  id : String
  title : String
  summary : JsonValue
  flashcards : JsonValue
  timestamp : Timestamp
  originalText : String

/-- The `Tab` union type (App.tsx line 39). -/
inductive Tab where
  | input
  | notes
  | flashcards
  | history
deriving DecidableEq

/-- The component state hooks (App.tsx lines 85-94). -/
structure AppState where
  lectureText : String
  isRecording : Bool
  interimTranscript : String
  isLoading : Bool
  error : Option String
  activeTab : Tab
  lectures : List Lecture
  selectedLecture : Option Lecture
  userId : Option String
  mockMode : Bool

/-- The `lectureData` object built in `handleGenerate` (App.tsx lines 260-265)
before an id and timestamp are attached. -/
structure LectureData where
  title : String
  summary : JsonValue
  flashcards : JsonValue
  originalText : String

/-- `MOCK_LECTURES` (App.tsx lines 42-54). The source timestamp is
`Date.now() - 1000 * 60 * 5` evaluated when `toDate` is called; it is modelled
as the fixed offset relative to a session epoch at 0. -/
def MOCK_LECTURES : List Lecture :=
  [{ id := "mock-1",
     title := "Introduction to AI (Sample)",
     summary := .jstr "This is a sample summary about Artificial Intelligence. It explains the core concepts, including machine learning, deep learning, and natural language processing. The goal is to provide a foundational understanding of the field.",
     flashcards := .jarr
       [.jobj [("term", .jstr "Machine Learning"),
               ("definition", .jstr "A field of study in artificial intelligence concerned with the development and study of statistical algorithms that can learn from data and generalize to unseen data.")],
        .jobj [("term", .jstr "Neural Network"),
               ("definition", .jstr "A series of algorithms that endeavors to recognize underlying relationships in a set of data through a process that mimics the way the human brain operates.")]],
     timestamp := .resolved (-(1000 * 60 * 5)),
     originalText := "This is the original text for the sample lecture on AI." }]

/-- The functional updater passed to `setSelectedLecture` inside the snapshot
callback (App.tsx lines 144-149): keep the current selection when its id still
occurs in the fresh snapshot, otherwise fall back to the first element or
`null`. -/
def reconcileSelection (currentSelected : Option Lecture)
    (lecturesData : List Lecture) : Option Lecture :=
  match currentSelected with
  | some cur =>
      if lecturesData.any (fun l => l.id == cur.id) then some cur
      else if lecturesData.length > 0 then lecturesData.head? else none
  | none => if lecturesData.length > 0 then lecturesData.head? else none

/-- The whole snapshot callback (App.tsx lines 140-149): replace the list with
the fresh snapshot and reconcile the selection. -/
def onSnapshotUpdate (st : AppState) (lecturesData : List Lecture) : AppState :=
  { st with
      lectures := lecturesData,
      selectedLecture := reconcileSelection st.selectedLecture lecturesData }

/-- `setupMockMode` (App.tsx lines 103-109). -/
def setupMockMode (st : AppState) : AppState :=
  { st with
      mockMode := true,
      userId := some "MOCK_USER_ID",
      lectures := MOCK_LECTURES,
      selectedLecture :=
        if MOCK_LECTURES.length > 0 then MOCK_LECTURES.head? else none }

/-- Presence of the globals checked at the top of `setupFirebase`
(App.tsx line 114): `window.firebase`, `window.__firebase_config`, and its
`apiKey` field. -/
structure FirebaseEnv where
  firebasePresent : Bool
  firebaseConfigPresent : Bool
  apiKeyPresent : Bool

/-- The configuration check `window.firebase && window.__firebase_config &&
window.__firebase_config.apiKey` (App.tsx line 114). -/
def remoteConfigAvailable (env : FirebaseEnv) : Bool :=
  env.firebasePresent && env.firebaseConfigPresent && env.apiKeyPresent

/-- The start of `setupFirebase` (App.tsx lines 111-117): with the remote
configuration absent, fall back to mock mode and return (the `Bool` records
that the mock branch was taken); otherwise the remote flow continues with the
external service. -/
def setupFirebaseStart (env : FirebaseEnv) (st : AppState) : AppState × Bool :=
  if remoteConfigAvailable env then (st, false) else (setupMockMode st, true)

/-- Which device call `handleToggleRecording` issues on the recognition
object. -/
inductive CaptureAction where
  | start
  | stop
deriving DecidableEq

/-- `handleToggleRecording` (App.tsx lines 204-214). Starting clears the text
buffer and the interim preview before calling `start()`; stopping only calls
`stop()` and resets the recording flag. -/
def handleToggleRecording (st : AppState) : AppState × CaptureAction :=
  if st.isRecording then
    ({ st with isRecording := false }, .stop)
  else
    ({ st with lectureText := "", interimTranscript := "", isRecording := true },
     .start)

/-- The `recognition.onend` handler (App.tsx lines 192-195), fired when the
capture device actually ends (after `stop()` or on its own). -/
def recognitionOnEnd (st : AppState) : AppState :=
  { st with isRecording := false, interimTranscript := "" }

/-- Drop leading whitespace characters from a character list. -/
def dropWhileWs : List Char → List Char
  | [] => []
  | c :: rest => if c.isWhitespace then dropWhileWs rest else c :: rest

/-- JavaScript `String.prototype.trim`: strip whitespace from both ends. -/
def jsTrim (s : String) : String :=
  ⟨List.reverse (dropWhileWs (List.reverse (dropWhileWs s.data)))⟩

/-- JavaScript falsiness of a `string | null` value: `null` and the empty
string are falsy. -/
def jsFalsyOptStr : Option String → Bool
  | none => true
  | some s => s == ""

/-- The guard at the top of `handleGenerate` (App.tsx line 217):
`!lectureText.trim() || !userId`. -/
def guardFails (st : AppState) : Bool :=
  jsTrim st.lectureText == "" || jsFalsyOptStr st.userId

/-- `isGenerateDisabled` (App.tsx line 301). -/
def isGenerateDisabled (st : AppState) : Bool :=
  jsTrim st.lectureText == "" || st.isLoading

/-- The fixed part of the failure message set in the catch block
(App.tsx line 289). -/
def generationErrorIntro : String := "An error occurred during generation: "

/-- The catch block plus the finally block of `handleGenerate`
(App.tsx lines 287-293): record the message, revert to the input tab, stop
loading. The template literal falls back to the literal `Unknown error` when
`err.message` is falsy. -/
def genFailureState (st : AppState) (msg : String) : AppState :=
  { st with
      error := some (generationErrorIntro ++
        (if msg == "" then "Unknown error" else msg)),
      activeTab := .input,
      isLoading := false }

/-- Representative engine message for the TypeError thrown by reading a
property of `null` or `undefined` (the exact text is engine-defined and not
part of the source). -/
def nullAccessMsg : String := "Cannot read properties of null"

/-- Outcome of the external steps of one generation attempt, up to and
including `JSON.parse` (App.tsx lines 256-258): either some step threw or
rejected with a message (network failure, missing `response.text`, JSON parse
error), or the parse produced a value. -/
inductive GenOutcome where
  | thrown (msg : String)
  | parsed (v : JsonValue)

/-- The new lecture built in the mock-mode branch (App.tsx lines 268-272):
locally generated id from `Date.now()` and an immediately resolved
timestamp. -/
def mockNewLecture (now : Int) (d : LectureData) : Lecture :=
  { id := "mock-" ++ toString now,
    title := d.title,
    summary := d.summary,
    flashcards := d.flashcards,
    timestamp := .resolved now,
    originalText := d.originalText }

/-- The fallback-backend write (App.tsx lines 267-274): build the new lecture
and prepend it to the in-memory list, synchronously. -/
def mockAdd (now : Int) (d : LectureData) (prev : List Lecture) :
    Lecture × List Lecture :=
  let newLecture := mockNewLecture now d
  (newLecture, newLecture :: prev)

/-- `handleGenerate` (App.tsx lines 216-294) as a state transition. `outcome`
is the combined result of the generation request and `JSON.parse`; `now` is
`Date.now()` at the mock-mode write; `storeWrite` is the result of the
Firestore `add` call in remote mode. The returned `Bool` records whether the
generation request was actually issued (false when the guard rejects). -/
def handleGenerate (st : AppState) (outcome : GenOutcome) (now : Int)
    (storeWrite : Except String Unit) : AppState × Bool :=
  if guardFails st then
    ({ st with error := some "Lecture text is required." }, false)
  else
    let st1 : AppState :=
      { st with isLoading := true, error := none, activeTab := Tab.notes }
    match outcome with
    | .thrown msg => (genFailureState st1 msg, true)
    | .parsed v =>
      match v with
      | .jnull => (genFailureState st1 nullAccessMsg, true)
      | .jundefined => (genFailureState st1 nullAccessMsg, true)
      | _ =>
        let d : LectureData :=
          { title := st.lectureText.take 40 ++ "...",
            summary := jsGet v "summary",
            flashcards := jsGet v "flashcards",
            originalText := st.lectureText }
        if st.mockMode then
          let added := mockAdd now d st1.lectures
          ({ st1 with
              lectures := added.2,
              selectedLecture := some added.1,
              isLoading := false }, true)
        else
          match storeWrite with
          | .ok _ => ({ st1 with isLoading := false }, true)
          | .error msg => (genFailureState st1 msg, true)

/-! ### Specification-side helpers

Encoding and decoding between the typed flashcard view used by the
specification and the untyped JavaScript values the code actually moves
around. These are not translations of source functions; they only let the
theorems speak about term/definition pairs. -/

/-- The JSON object a schema-conformant flashcard arrives as. -/
def encodeFlashcard (c : Flashcard) : JsonValue :=
  .jobj [("term", .jstr c.term), ("definition", .jstr c.definition)]

/-- The JSON object a schema-conformant generation response arrives as. -/
def encodeResponse (summary : String) (cards : List Flashcard) : JsonValue :=
  .jobj [("summary", .jstr summary),
         ("flashcards", .jarr (cards.map encodeFlashcard))]

/-- Read one flashcard off a JavaScript value, if it has the required shape. -/
def decodeFlashcard (v : JsonValue) : Option Flashcard :=
  match jsGet v "term", jsGet v "definition" with
  | .jstr t, .jstr d => some { term := t, definition := d }
  | _, _ => none

/-- Decode a list of flashcard objects, failing if any entry is malformed. -/
def decodeFlashcardList : List JsonValue → Option (List Flashcard)
  | [] => some []
  | v :: rest =>
    match decodeFlashcard v, decodeFlashcardList rest with
    | some c, some cs => some (c :: cs)
    | _, _ => none

/-- Decode a `flashcards` field: it must be an array of well-shaped
flashcard objects. -/
def decodeFlashcards : JsonValue → Option (List Flashcard)
  | .jarr elems => decodeFlashcardList elems
  | _ => none

/-- Failure condition of a generation attempt whose guard passed: the request
or parse threw, the parsed value was `null`/`undefined` (the property read
throws), or, in remote mode, the Firestore write was rejected. -/
def genAttemptFails (st : AppState) (outcome : GenOutcome)
    (storeWrite : Except String Unit) : Prop :=
  match outcome with
  | .thrown _ => True
  | .parsed .jnull => True
  | .parsed .jundefined => True
  | .parsed _ => st.mockMode = false ∧ ∃ msg, storeWrite = .error msg

/-! ### Helper lemmas -/

theorem guardFails_eq_false (st : AppState) (h1 : jsTrim st.lectureText ≠ "")
    (u : String) (h2 : st.userId = some u) (h3 : u ≠ "") :
    guardFails st = false := by
  simp [guardFails, jsFalsyOptStr, h1, h2, h3]

theorem generationErrorIntro_append_ne (s : String) :
    generationErrorIntro ++ s ≠ "" := by
  intro h
  have hlen := congrArg String.length h
  rw [String.length_append] at hlen
  have h1 : 0 < generationErrorIntro.length := by decide
  have h2 : ("" : String).length = 0 := rfl
  omega

theorem genFailureState_error_ne (st : AppState) (msg : String) :
    ∃ m, (genFailureState st msg).error = some m ∧ m ≠ "" := by
  refine ⟨generationErrorIntro ++ (if msg == "" then "Unknown error" else msg),
    rfl, generationErrorIntro_append_ne _⟩

theorem decodeFlashcardList_encode (cs : List Flashcard) :
    decodeFlashcardList (cs.map encodeFlashcard) = some cs := by
  induction cs with
  | nil => rfl
  | cons c rest ih =>
      simp [decodeFlashcardList, decodeFlashcard, encodeFlashcard, jsGet,
        lookupField, ih]

theorem decodeFlashcards_encode (cs : List Flashcard) :
    decodeFlashcards (.jarr (cs.map encodeFlashcard)) = some cs := by
  simp [decodeFlashcards, decodeFlashcardList_encode]

/-- Evaluation of the mock-mode success branch of `handleGenerate` on a parsed
JSON object. -/
theorem handleGenerate_mock_jobj (st : AppState) (hgf : guardFails st = false)
    (hm : st.mockMode = true) (fields : List (String × JsonValue)) (now : Int)
    (w : Except String Unit) :
    handleGenerate st (.parsed (.jobj fields)) now w =
      ({ st with
          isLoading := false, error := none, activeTab := Tab.notes,
          lectures := mockNewLecture now
            { title := st.lectureText.take 40 ++ "...",
              summary := jsGet (.jobj fields) "summary",
              flashcards := jsGet (.jobj fields) "flashcards",
              originalText := st.lectureText } :: st.lectures,
          selectedLecture := some (mockNewLecture now
            { title := st.lectureText.take 40 ++ "...",
              summary := jsGet (.jobj fields) "summary",
              flashcards := jsGet (.jobj fields) "flashcards",
              originalText := st.lectureText }) }, true) := by
  simp [handleGenerate, hgf, hm, mockAdd]

theorem headOrNone_eq_head (data : List Lecture) :
    (if data.length > 0 then data.head? else none) = data.head? := by
  cases data <;> simp

/-! ### Fixtures for witnesses and counterexamples -/

/-- A blank initial state, matching the initial `useState` values
(App.tsx lines 85-94). -/
def baseState : AppState :=
  { lectureText := "", isRecording := false, interimTranscript := "",
    isLoading := false, error := none, activeTab := .input, lectures := [],
    selectedLecture := none, userId := none, mockMode := false }

/-- A concrete lecture used in witnesses. -/
def lecA : Lecture :=
  { id := "a", title := "A", summary := .jstr "sa", flashcards := .jarr [],
    timestamp := .resolved 1, originalText := "ta" }

/-- A second concrete lecture used in witnesses. -/
def lecB : Lecture :=
  { id := "b", title := "B", summary := .jstr "sb", flashcards := .jarr [],
    timestamp := .resolved 2, originalText := "tb" }

/-- A mock-mode session with a non-blank transcript and a resolved user,
used in witnesses and counterexamples. -/
def mockSessionState : AppState :=
  { baseState with
      lectureText := "Cells are the basic unit of life",
      userId := some "user-1",
      mockMode := true }

/-! ### Claims -/

/-- C1: whenever the store delivers a new list snapshot, the selection is
reconciled by one rule: if the previously selected record's id occurs in the
new snapshot, the selection is unchanged; otherwise it becomes the first
element of the new snapshot, or none when the snapshot is empty. -/
theorem snapshot_selection_reconciliation (st : AppState) (data : List Lecture) :
    (∀ cur, st.selectedLecture = some cur →
      ((∃ l ∈ data, l.id = cur.id) →
        (onSnapshotUpdate st data).selectedLecture = some cur) ∧
      ((∀ l ∈ data, l.id ≠ cur.id) →
        (onSnapshotUpdate st data).selectedLecture = data.head?)) ∧
    (st.selectedLecture = none →
      (onSnapshotUpdate st data).selectedLecture = data.head?) := by
  constructor
  · intro cur hcur
    constructor
    · rintro ⟨l, hl, hid⟩
      have hany : data.any (fun l => l.id == cur.id) = true := by
        rw [List.any_eq_true]
        exact ⟨l, hl, by simp [hid]⟩
      simp [onSnapshotUpdate, reconcileSelection, hcur, hany]
    · intro habs
      have hany : data.any (fun l => l.id == cur.id) = false := by
        rw [List.any_eq_false]
        intro l hl
        simp [habs l hl]
      simp [onSnapshotUpdate, reconcileSelection, hcur, hany, headOrNone_eq_head]
  · intro hnone
    simp [onSnapshotUpdate, reconcileSelection, hnone, headOrNone_eq_head]

/-- Witness for C1: with `lecA` selected, a reordered snapshot still
containing id `a` keeps `lecA` selected; a snapshot without id `a` selects its
first element; an empty snapshot selects none. -/
theorem snapshot_selection_reconciliation_witness :
    (onSnapshotUpdate { baseState with selectedLecture := some lecA }
        [lecB, lecA]).selectedLecture = some lecA ∧
    (onSnapshotUpdate { baseState with selectedLecture := some lecA }
        [lecB]).selectedLecture = some lecB ∧
    (onSnapshotUpdate { baseState with selectedLecture := some lecA }
        []).selectedLecture = none := by
  refine ⟨?_, ?_, ?_⟩
  · exact ((snapshot_selection_reconciliation
        { baseState with selectedLecture := some lecA } [lecB, lecA]).1
        lecA rfl).1 ⟨lecA, by simp, rfl⟩
  · exact ((snapshot_selection_reconciliation
        { baseState with selectedLecture := some lecA } [lecB]).1
        lecA rfl).2 (by intro l hl; simp at hl; simp [hl, lecA, lecB])
  · exact ((snapshot_selection_reconciliation
        { baseState with selectedLecture := some lecA } []).1
        lecA rfl).2 (by intro l hl; simp at hl)

/-- C4: for every transcript whose trim is empty, generation is rejected
before any request is made (`false` request flag), the empty-input error is
surfaced, and the generate button is disabled. -/
theorem empty_transcript_rejected (st : AppState)
    (h : jsTrim st.lectureText = "") (outcome : GenOutcome) (now : Int)
    (w : Except String Unit) :
    handleGenerate st outcome now w =
      ({ st with error := some "Lecture text is required." }, false) ∧
    isGenerateDisabled st = true := by
  have hg : guardFails st = true := by simp [guardFails, h]
  exact ⟨by simp [handleGenerate, hg], by simp [isGenerateDisabled, h]⟩

/-- Witness for C4: a whitespace-only transcript is rejected with the
empty-input message and no request. -/
theorem empty_transcript_rejected_witness :
    jsTrim ({ baseState with lectureText := "   ", userId := some "u" } :
        AppState).lectureText = "" ∧
    handleGenerate { baseState with lectureText := "   ", userId := some "u" }
        (.thrown "never sent") 0 (.ok ()) =
      ({ { baseState with lectureText := "   ", userId := some "u" } with
          error := some "Lecture text is required." }, false) :=
  ⟨by decide,
   (empty_transcript_rejected
      { baseState with lectureText := "   ", userId := some "u" } (by decide)
      (.thrown "never sent") 0 (.ok ())).1⟩

/-- C10: a generate request made while `userId` is null is rejected before any
generation call with the same message as the empty-transcript case, even for a
non-empty transcript; the state is otherwise untouched (no store write). -/
theorem null_userid_rejected (st : AppState) (h : st.userId = none)
    (outcome : GenOutcome) (now : Int) (w : Except String Unit) :
    handleGenerate st outcome now w =
      ({ st with error := some "Lecture text is required." }, false) ∧
    ((handleGenerate st outcome now w).1).lectures = st.lectures := by
  have hg : guardFails st = true := by simp [guardFails, jsFalsyOptStr, h]
  refine ⟨by simp [handleGenerate, hg], ?_⟩
  simp [handleGenerate, hg]

/-- Witness for C10: a non-blank transcript with a null user id is rejected
with the empty-input message. -/
theorem null_userid_rejected_witness :
    ({ baseState with lectureText := "hello" } : AppState).userId = none ∧
    jsTrim ({ baseState with lectureText := "hello" } : AppState).lectureText ≠ "" ∧
    handleGenerate { baseState with lectureText := "hello" }
        (.thrown "never sent") 0 (.ok ()) =
      ({ { baseState with lectureText := "hello" } with
          error := some "Lecture text is required." }, false) :=
  ⟨rfl, by decide,
   (null_userid_rejected { baseState with lectureText := "hello" } rfl
      (.thrown "never sent") 0 (.ok ())).1⟩

/-- C7: the fallback-backend `add` makes the new record the first element of
the in-memory list with a locally generated id and an immediately resolved
timestamp, carries the record data over unchanged, and grows the list by
exactly one. -/
theorem mock_add_spec (now : Int) (d : LectureData) (prev : List Lecture) :
    (mockAdd now d prev).2 = (mockAdd now d prev).1 :: prev ∧
    ((mockAdd now d prev).2).length = prev.length + 1 ∧
    ((mockAdd now d prev).2).head? = some (mockAdd now d prev).1 ∧
    (mockAdd now d prev).1.id = "mock-" ++ toString now ∧
    (mockAdd now d prev).1.timestamp = Timestamp.resolved now ∧
    (mockAdd now d prev).1.timestamp ≠ Timestamp.pending ∧
    (mockAdd now d prev).1.title = d.title ∧
    (mockAdd now d prev).1.summary = d.summary ∧
    (mockAdd now d prev).1.flashcards = d.flashcards ∧
    (mockAdd now d prev).1.originalText = d.originalText := by
  simp [mockAdd, mockNewLecture]

/-- C8: with the remote store configuration absent at startup, the session
enters fallback mode, the list is seeded with exactly the one built-in sample
record, and that record becomes the selected one. -/
theorem config_absent_seeds_mock (st : AppState) (env : FirebaseEnv)
    (h : env.firebaseConfigPresent = false) :
    ((setupFirebaseStart env st).1).mockMode = true ∧
    ((setupFirebaseStart env st).1).lectures = MOCK_LECTURES ∧
    ((setupFirebaseStart env st).1).lectures.length = 1 ∧
    ((setupFirebaseStart env st).1).selectedLecture =
      ((setupFirebaseStart env st).1).lectures.head? ∧
    ((setupFirebaseStart env st).1).selectedLecture ≠ none := by
  have havail : remoteConfigAvailable env = false := by
    simp [remoteConfigAvailable, h]
  refine ⟨?_, ?_, ?_, ?_, ?_⟩ <;>
    simp [setupFirebaseStart, havail, setupMockMode, MOCK_LECTURES]

/-- Witness for C8: a concrete environment without configuration seeds the
sample record and selects it. -/
theorem config_absent_seeds_mock_witness :
    (FirebaseEnv.mk true false true).firebaseConfigPresent = false ∧
    ((setupFirebaseStart (FirebaseEnv.mk true false true) baseState).1).mockMode
      = true ∧
    ((setupFirebaseStart (FirebaseEnv.mk true false true)
        baseState).1).lectures.length = 1 ∧
    ((setupFirebaseStart (FirebaseEnv.mk true false true)
        baseState).1).selectedLecture =
      ((setupFirebaseStart (FirebaseEnv.mk true false true)
        baseState).1).lectures.head? :=
  ⟨rfl,
   (config_absent_seeds_mock baseState (FirebaseEnv.mk true false true) rfl).1,
   (config_absent_seeds_mock baseState
      (FirebaseEnv.mk true false true) rfl).2.2.1,
   (config_absent_seeds_mock baseState
      (FirebaseEnv.mk true false true) rfl).2.2.2.1⟩

/-- C9: toggling capture while not recording clears both the text buffer and
the interim preview and starts the device; toggling while recording stops the
device, leaves the text buffer as-is, and (once the device reports the end of
the session) the interim preview is cleared while the buffer stays
unchanged. -/
theorem toggle_capture_spec (st : AppState) :
    (st.isRecording = false →
      handleToggleRecording st =
        ({ st with lectureText := "", interimTranscript := "",
                   isRecording := true }, CaptureAction.start)) ∧
    (st.isRecording = true →
      (handleToggleRecording st).2 = CaptureAction.stop ∧
      (handleToggleRecording st).1.lectureText = st.lectureText ∧
      (recognitionOnEnd (handleToggleRecording st).1).lectureText
        = st.lectureText ∧
      (recognitionOnEnd (handleToggleRecording st).1).interimTranscript
        = "") := by
  constructor <;> intro h <;>
    simp [handleToggleRecording, recognitionOnEnd, h]

/-- An idle capture state with prior text, for the C9 witness. -/
def idleCaptureState : AppState :=
  { baseState with lectureText := "old text", interimTranscript := "i" }

/-- An active capture state with text already finalized, for the C9
witness. -/
def activeCaptureState : AppState :=
  { baseState with
      lectureText := "kept",
      interimTranscript := "i",
      isRecording := true }

/-- Witness for C9: starting from a state with prior text clears it; stopping
from a recording state keeps the text and clears the interim preview. -/
theorem toggle_capture_spec_witness :
    handleToggleRecording idleCaptureState
      = ({ idleCaptureState with
           lectureText := "", interimTranscript := "", isRecording := true },
         CaptureAction.start) ∧
    (recognitionOnEnd
        (handleToggleRecording activeCaptureState).1).lectureText = "kept" ∧
    (recognitionOnEnd
        (handleToggleRecording activeCaptureState).1).interimTranscript = "" :=
  ⟨(toggle_capture_spec idleCaptureState).1 rfl,
   ((toggle_capture_spec activeCaptureState).2 rfl).2.2.1,
   ((toggle_capture_spec activeCaptureState).2 rfl).2.2.2⟩

theorem genFailureState_props (st : AppState) (msg : String) :
    (∃ m, (genFailureState st msg).error = some m ∧ m ≠ "") ∧
    (genFailureState st msg).activeTab = Tab.input ∧
    (genFailureState st msg).isLoading = false ∧
    (genFailureState st msg).lectureText = st.lectureText :=
  ⟨genFailureState_error_ne st msg, rfl, rfl, rfl⟩

/-- C5: every generate attempt that fails leaves a non-empty error message,
reverts the active tab to the input view, returns the loading flag to idle,
and preserves the transcript buffer. -/
theorem generate_failure_reverts (st : AppState)
    (h1 : jsTrim st.lectureText ≠ "") (u : String) (h2 : st.userId = some u)
    (h3 : u ≠ "") (outcome : GenOutcome) (now : Int)
    (w : Except String Unit) (hfail : genAttemptFails st outcome w) :
    (∃ m, ((handleGenerate st outcome now w).1).error = some m ∧ m ≠ "") ∧
    ((handleGenerate st outcome now w).1).activeTab = Tab.input ∧
    ((handleGenerate st outcome now w).1).isLoading = false ∧
    ((handleGenerate st outcome now w).1).lectureText = st.lectureText := by
  have hgf := guardFails_eq_false st h1 u h2 h3
  have hfs : ∃ m, handleGenerate st outcome now w =
      (genFailureState
        { st with isLoading := true, error := none, activeTab := Tab.notes }
        m, true) := by
    cases outcome with
    | thrown msg => exact ⟨msg, by simp [handleGenerate, hgf]⟩
    | parsed v =>
      cases v with
      | jnull => exact ⟨nullAccessMsg, by simp [handleGenerate, hgf]⟩
      | jundefined => exact ⟨nullAccessMsg, by simp [handleGenerate, hgf]⟩
      | jbool b =>
          obtain ⟨hm, msg, hw⟩ := hfail
          exact ⟨msg, by simp [handleGenerate, hgf, hm, hw]⟩
      | jnum n =>
          obtain ⟨hm, msg, hw⟩ := hfail
          exact ⟨msg, by simp [handleGenerate, hgf, hm, hw]⟩
      | jstr s =>
          obtain ⟨hm, msg, hw⟩ := hfail
          exact ⟨msg, by simp [handleGenerate, hgf, hm, hw]⟩
      | jarr elems =>
          obtain ⟨hm, msg, hw⟩ := hfail
          exact ⟨msg, by simp [handleGenerate, hgf, hm, hw]⟩
      | jobj fields =>
          obtain ⟨hm, msg, hw⟩ := hfail
          exact ⟨msg, by simp [handleGenerate, hgf, hm, hw]⟩
  obtain ⟨m, hEq⟩ := hfs
  rw [hEq]
  exact genFailureState_props _ m

/-- Witness for C5: a rejected generation request on a mock-mode session with
the transcript `hello` reverts the tab, idles the loading flag, keeps the
transcript, and records a non-empty message. -/
theorem generate_failure_reverts_witness :
    jsTrim (mockSessionState.lectureText) ≠ "" ∧
    (∃ m, ((handleGenerate mockSessionState (.thrown "Request rejected") 0
        (.ok ())).1).error = some m ∧ m ≠ "") ∧
    ((handleGenerate mockSessionState (.thrown "Request rejected") 0
        (.ok ())).1).activeTab = Tab.input ∧
    ((handleGenerate mockSessionState (.thrown "Request rejected") 0
        (.ok ())).1).isLoading = false ∧
    ((handleGenerate mockSessionState (.thrown "Request rejected") 0
        (.ok ())).1).lectureText = mockSessionState.lectureText :=
  ⟨by decide,
   generate_failure_reverts mockSessionState (by decide) "user-1" rfl
     (by decide) (.thrown "Request rejected") 0 (.ok ()) trivial⟩

/-- C6: a successful generation in fallback mode produces a record whose
flashcards field is the response's flashcards array verbatim: same length,
same order, same term and definition strings. -/
theorem success_preserves_flashcards (st : AppState)
    (h1 : jsTrim st.lectureText ≠ "") (u : String) (h2 : st.userId = some u)
    (h3 : u ≠ "") (hm : st.mockMode = true) (s : String)
    (cards : List Flashcard) (now : Int) (w : Except String Unit) :
    ∃ nl,
      ((handleGenerate st (.parsed (encodeResponse s cards)) now w).1).lectures
        = nl :: st.lectures ∧
      ((handleGenerate st (.parsed (encodeResponse s cards)) now
          w).1).selectedLecture = some nl ∧
      nl.flashcards = .jarr (cards.map encodeFlashcard) ∧
      decodeFlashcards nl.flashcards = some cards ∧
      (∀ decoded, decodeFlashcards nl.flashcards = some decoded →
        decoded.length = cards.length ∧ decoded = cards) := by
  have hgf := guardFails_eq_false st h1 u h2 h3
  have hEnc : encodeResponse s cards = JsonValue.jobj
      [("summary", .jstr s),
       ("flashcards", .jarr (cards.map encodeFlashcard))] := rfl
  rw [hEnc, handleGenerate_mock_jobj st hgf hm _ now w]
  have hflash : jsGet (JsonValue.jobj
      [("summary", .jstr s),
       ("flashcards", .jarr (cards.map encodeFlashcard))]) "flashcards"
      = .jarr (cards.map encodeFlashcard) := by
    simp [jsGet, lookupField]
  refine ⟨_, rfl, rfl, rfl, ?_, ?_⟩
  · exact decodeFlashcards_encode cards
  · intro decoded hdec
    simp only [mockNewLecture] at hdec
    rw [hflash, decodeFlashcards_encode cards] at hdec
    cases hdec
    exact ⟨rfl, rfl⟩

/-- Witness for C6: a one-card response in mock mode yields a record carrying
exactly that card. -/
theorem success_preserves_flashcards_witness :
    jsTrim (mockSessionState.lectureText) ≠ "" ∧
    ∃ nl,
      ((handleGenerate mockSessionState
          (.parsed (encodeResponse "A summary"
            [{ term := "Neuron", definition := "A nerve cell" }])) 7
          (.ok ())).1).lectures = nl :: mockSessionState.lectures ∧
      ((handleGenerate mockSessionState
          (.parsed (encodeResponse "A summary"
            [{ term := "Neuron", definition := "A nerve cell" }])) 7
          (.ok ())).1).selectedLecture = some nl ∧
      nl.flashcards = .jarr
        ([{ term := "Neuron", definition := "A nerve cell" }].map
          encodeFlashcard) ∧
      decodeFlashcards nl.flashcards =
        some [{ term := "Neuron", definition := "A nerve cell" }] ∧
      (∀ decoded, decodeFlashcards nl.flashcards = some decoded →
        decoded.length =
          ([{ term := "Neuron", definition := "A nerve cell" }] :
            List Flashcard).length ∧
        decoded = [{ term := "Neuron", definition := "A nerve cell" }]) :=
  ⟨by decide,
   success_preserves_flashcards mockSessionState (by decide) "user-1" rfl
     (by decide) rfl "A summary"
     [{ term := "Neuron", definition := "A nerve cell" }] 7 (.ok ())⟩

/-- Counterexample to C2 as stated: the payload parses to the empty JSON
object, which violates the required shape (no `summary` string, no
`flashcards` array), yet the generate call does not fail — no error is
recorded and a record is still produced (the list grows from zero to one
entries). -/
theorem generation_shape_counterexample :
    ((handleGenerate mockSessionState (.parsed (.jobj [])) 0
        (.ok ())).1).error = none ∧
    (handleGenerate mockSessionState (.parsed (.jobj [])) 0 (.ok ())).2
      = true ∧
    mockSessionState.lectures.length = 0 ∧
    ((handleGenerate mockSessionState (.parsed (.jobj [])) 0
        (.ok ())).1).lectures.length = 1 :=
  ⟨rfl, rfl, rfl, rfl⟩

/-- C2 amended: when the generation request or `JSON.parse` throws, or the
parsed payload is JSON `null` (whose field reads throw), generate fails with a
non-empty error message and no record is produced; but a payload that parses
to a JSON object of the wrong shape is not rejected — a record is produced
whose `summary` and `flashcards` are read off the payload as-is (JavaScript
`undefined` when absent). -/
theorem generation_error_amended (st : AppState)
    (h1 : jsTrim st.lectureText ≠ "") (u : String) (h2 : st.userId = some u)
    (h3 : u ≠ "") (now : Int) (w : Except String Unit) :
    (∀ msg,
      (∃ m, ((handleGenerate st (.thrown msg) now w).1).error = some m ∧
        m ≠ "") ∧
      ((handleGenerate st (.thrown msg) now w).1).lectures = st.lectures) ∧
    ((∃ m, ((handleGenerate st (.parsed .jnull) now w).1).error = some m ∧
        m ≠ "") ∧
      ((handleGenerate st (.parsed .jnull) now w).1).lectures = st.lectures) ∧
    (st.mockMode = true → ∀ fields,
      ((handleGenerate st (.parsed (.jobj fields)) now w).1).error = none ∧
      ∃ nl, ((handleGenerate st (.parsed (.jobj fields)) now w).1).lectures
          = nl :: st.lectures ∧
        nl.summary = jsGet (.jobj fields) "summary" ∧
        nl.flashcards = jsGet (.jobj fields) "flashcards") := by
  have hgf := guardFails_eq_false st h1 u h2 h3
  refine ⟨?_, ?_, ?_⟩
  · intro msg
    have hred : handleGenerate st (.thrown msg) now w =
        (genFailureState
          { st with isLoading := true, error := none, activeTab := Tab.notes }
          msg, true) := by
      simp [handleGenerate, hgf]
    rw [hred]
    exact ⟨genFailureState_error_ne _ msg, rfl⟩
  · have hred : handleGenerate st (.parsed .jnull) now w =
        (genFailureState
          { st with isLoading := true, error := none, activeTab := Tab.notes }
          nullAccessMsg, true) := by
      simp [handleGenerate, hgf]
    rw [hred]
    exact ⟨genFailureState_error_ne _ nullAccessMsg, rfl⟩
  · intro hm fields
    rw [handleGenerate_mock_jobj st hgf hm fields now w]
    exact ⟨rfl, _, rfl, rfl, rfl⟩

/-- Witness for the amended C2: on a concrete mock-mode session, a parse
failure surfaces a non-empty error, while the empty-object payload produces a
record with no error. -/
theorem generation_error_amended_witness :
    jsTrim mockSessionState.lectureText ≠ "" ∧
    (∃ m, ((handleGenerate mockSessionState
        (.thrown "Unexpected end of JSON input") 0 (.ok ())).1).error
        = some m ∧ m ≠ "") ∧
    ((handleGenerate mockSessionState (.parsed (.jobj [])) 0
        (.ok ())).1).error = none :=
  ⟨by decide,
   ((generation_error_amended mockSessionState (by decide) "user-1" rfl
      (by decide) 0 (.ok ())).1 "Unexpected end of JSON input").1,
   ((generation_error_amended mockSessionState (by decide) "user-1" rfl
      (by decide) 0 (.ok ())).2.2 rfl []).1⟩

/-- A schema-conformant generation payload whose single flashcard has an
empty-string term. -/
def emptyTermResponse : JsonValue :=
  .jobj [("summary", .jstr "s"),
         ("flashcards",
          .jarr [.jobj [("term", .jstr ""), ("definition", .jstr "d")]])]

/-- Counterexample to C3 as stated: a successful generation from a payload
whose flashcard term is the empty string produces a record (no error, list
grows to one) whose single flashcard entry has an empty term. -/
theorem flashcards_nonempty_term_counterexample :
    ((handleGenerate mockSessionState (.parsed emptyTermResponse) 0
        (.ok ())).1).error = none ∧
    ((handleGenerate mockSessionState (.parsed emptyTermResponse) 0
        (.ok ())).1).lectures.length = 1 ∧
    ((handleGenerate mockSessionState (.parsed emptyTermResponse) 0
        (.ok ())).1).lectures.map (fun l => decodeFlashcards l.flashcards)
      = [some [{ term := "", definition := "d" }]] :=
  ⟨rfl, rfl, rfl⟩

/-- C3 amended: the seeded sample record satisfies the invariant — its
flashcards decode to a list of entries all of whose terms are non-empty — but
records created by generation merely carry the response's `flashcards` field
verbatim, with no non-null or non-empty-term guarantee enforced by the
code. -/
theorem flashcards_invariant_amended (st : AppState)
    (h1 : jsTrim st.lectureText ≠ "") (u : String) (h2 : st.userId = some u)
    (h3 : u ≠ "") (hm : st.mockMode = true) (now : Int)
    (w : Except String Unit) :
    (∀ l ∈ MOCK_LECTURES, ∃ cards,
      decodeFlashcards l.flashcards = some cards ∧
      cards.length > 0 ∧ ∀ c ∈ cards, c.term ≠ "") ∧
    (∀ fields, ∃ nl,
      ((handleGenerate st (.parsed (.jobj fields)) now w).1).lectures
        = nl :: st.lectures ∧
      nl.flashcards = jsGet (.jobj fields) "flashcards") := by
  have hgf := guardFails_eq_false st h1 u h2 h3
  constructor
  · intro l hl
    rw [MOCK_LECTURES, List.mem_singleton] at hl
    subst hl
    exact ⟨_, rfl, by decide, by decide⟩
  · intro fields
    rw [handleGenerate_mock_jobj st hgf hm fields now w]
    exact ⟨_, rfl, rfl⟩

/-- Witness for the amended C3: the sample record's flashcards decode with
non-empty terms, and a concrete wrong-shaped generation carries the field
over verbatim. -/
theorem flashcards_invariant_amended_witness :
    jsTrim mockSessionState.lectureText ≠ "" ∧
    (∀ l ∈ MOCK_LECTURES, ∃ cards,
      decodeFlashcards l.flashcards = some cards ∧
      cards.length > 0 ∧ ∀ c ∈ cards, c.term ≠ "") :=
  ⟨by decide,
   (flashcards_invariant_amended mockSessionState (by decide) "user-1" rfl
      (by decide) rfl 0 (.ok ())).1⟩

end StudyMate
